import Mathlib

/-!
Verification of the core of a grbl-style CNC engraver firmware
(protocol line framer, G-code parser/executor, arc segmenter,
planner block validator, stepper engine, supervisory state machine).

The C sources are shallowly embedded:
* `float` values are modelled as `ℚ` where every operation performed by
  the verified scenarios is exact (assignments, comparisons, parsing of
  short decimal literals), and as `ℝ` for the trigonometric arc
  geometry;
* machine integers are modelled as `Nat`/`Int` (with explicit `% 2^32`
  where unsigned wrap-around matters);
* `NULL`-able pointer parameters of the public entry points are
  modelled as `Option`;
* HAL calls (GPIO, spindle, timers) are external side effects with no
  influence on the embedded state and are not modelled.
-/

namespace CNC

/-! ## Planner block (planner.h / planner block validator) -/

/-- Embeds `planner_block_t` (planner.h).  The C struct's `next` pointer
(for a future linked-list queue) carries no data and is omitted. -/
structure PlannerBlock where
  entry_speed : ℚ
  nominal_speed : ℚ
  exit_speed : ℚ
  acceleration : ℚ
  max_entry_speed : ℚ
  millimeters : ℚ
  direction_bits : Nat
  step_event_count : Nat
  recalculate_flag : Nat
  nominal_length_flag : Nat
deriving DecidableEq

/-- Embeds `planner_block_init`: the C code zero-fills the struct. -/
def planner_block_init : PlannerBlock :=
  ⟨0, 0, 0, 0, 0, 0, 0, 0, 0, 0⟩

/-- Embeds `planner_block_validate` (planner.c).  The C function takes a
pointer and returns 0 on `NULL`; the `NULL` case is handled by the
`Option` wrapper `planner_block_validate_opt` below.  Returns `true`
for 1 and `false` for 0. -/
def planner_block_validate (b : PlannerBlock) : Bool :=
  if b.entry_speed < 0 then false
  else if b.nominal_speed < 0 then false
  else if b.exit_speed < 0 then false
  else if b.acceleration < 0 then false
  else if b.max_entry_speed < 0 then false
  else if b.millimeters < 0 then false
  else if 0 < b.max_entry_speed ∧ b.max_entry_speed < b.entry_speed then false
  else if 0 < b.nominal_speed ∧ b.nominal_speed < b.entry_speed then false
  else if 0 < b.nominal_speed ∧ b.nominal_speed < b.exit_speed then false
  else true

/-- `planner_block_validate` with the C `NULL` check
(`if (block == NULL) return 0`). -/
def planner_block_validate_opt : Option PlannerBlock → Bool
  | none => false
  | some b => planner_block_validate b

/-! ## G-code data model (stepper.h: gcode_state_t, gcode_block_t) -/

/-- `gcode_motion_mode_t`. -/
inductive MotionMode
  | rapid | linear | arcCW | arcCCW | dwell
deriving DecidableEq

/-- `gcode_coord_mode_t`. -/
inductive CoordMode
  | absolute | relative
deriving DecidableEq

/-- `gcode_feed_mode_t`. -/
inductive FeedMode
  | unitsPerMin | inverseTime
deriving DecidableEq

/-- `gcode_spindle_state_t`. -/
inductive SpindleState
  | off | cw | ccw
deriving DecidableEq

/-- `gcode_status_t`. -/
inductive GStatus
  | ok | errMissingParam | errInvalidParam | errUnknownCmd
  | errUnsupportedCmd | errInvalidTarget | errOverflow
deriving DecidableEq

/-- Embeds `gcode_state_t` (stepper.h), the executor's modal state. -/
structure GcodeState where
  position_x : ℚ
  position_y : ℚ
  motion_mode : MotionMode
  coord_mode : CoordMode
  feed_mode : FeedMode
  spindle_state : SpindleState
  feedrate : ℚ
  spindle_speed : ℚ
  feedrate_set : Bool
  absolute_mode : Bool
  program_complete : Bool
deriving DecidableEq

/-- Embeds `gcode_block_t`.  The C code initialises the numeric fields
to `NAN` and every read of such a field is guarded by its presence
flag, so the placeholder value 0 used here is never observable. -/
structure GcodeBlock where
  x : ℚ
  y : ℚ
  i : ℚ
  j : ℚ
  r : ℚ
  f : ℚ
  s : ℚ
  p : ℚ
  has_x : Bool
  has_y : Bool
  has_i : Bool
  has_j : Bool
  has_r : Bool
  has_f : Bool
  has_s : Bool
  has_p : Bool
  g_code : Int
  m_code : Int
  has_g : Bool
  has_m : Bool
deriving DecidableEq

/-- The zero-initialised block produced by `memset` at the top of
`gcode_parse_line` (numeric fields then set to `NAN`, modelled as 0;
see `GcodeBlock`). -/
def emptyBlock : GcodeBlock :=
  ⟨0, 0, 0, 0, 0, 0, 0, 0,
   false, false, false, false, false, false, false, false,
   0, 0, false, false⟩

/-- Embeds `gcode_init` (gcode.c): default modal state after reset. -/
def gcode_init : GcodeState where
  position_x := 0
  position_y := 0
  motion_mode := MotionMode.linear
  coord_mode := CoordMode.absolute
  feed_mode := FeedMode.unitsPerMin
  spindle_state := SpindleState.off
  feedrate := 100
  spindle_speed := 0
  feedrate_set := false
  absolute_mode := true
  program_complete := false

/-! ## Supervisor state machine (system_state.h / system_state.c) -/

/-- `system_state_t`. -/
inductive SysState
  | idle | running | hold | jog | alarm | homing | check | sleep | door
deriving DecidableEq

/-- `system_alarm_t`. -/
inductive SysAlarm
  | none | hardLimit | softLimit | estop | probeFail | homingFail
  | overflow | spindleStall
deriving DecidableEq

/-- Embeds `system_context_t` (system_state.h).  The planner queue
implementation is not in the sources; only its emptying on alarm is
observable, so it is carried as a list of blocks. -/
structure SystemCtx where
  state : SysState
  alarm : SysAlarm
  gcode : GcodeState
  planner : List PlannerBlock
  homed : Bool
  limits_enabled : Bool
  soft_limits_enabled : Bool
  spindle_enabled : Bool
  machine_x : ℚ
  machine_y : ℚ
  machine_z : ℚ
  work_offset_x : ℚ
  work_offset_y : ℚ
  work_offset_z : ℚ
  total_lines_processed : Nat
  total_errors : Nat
  uptime_ms : Nat
deriving DecidableEq

/-- Embeds `system_init` (system_state.c). -/
def system_init : SystemCtx where
  state := SysState.idle
  alarm := SysAlarm.none
  gcode := gcode_init
  planner := []
  homed := false
  limits_enabled := true
  soft_limits_enabled := false
  spindle_enabled := true
  machine_x := 0
  machine_y := 0
  machine_z := 0
  work_offset_x := 0
  work_offset_y := 0
  work_offset_z := 0
  total_lines_processed := 0
  total_errors := 0
  uptime_ms := 0

/-- Embeds `system_set_state` (system_state.c lines 136-171): returns
the C function's boolean result together with the updated context. -/
def system_set_state (sys : SystemCtx) (new_state : SysState) :
    Bool × SystemCtx :=
  let old_state := sys.state
  if old_state = SysState.alarm ∧ new_state ≠ SysState.idle then
    (false, sys)
  else if new_state = SysState.homing ∧ old_state ≠ SysState.idle then
    (false, sys)
  else if new_state = SysState.running ∧
      (old_state ≠ SysState.idle ∧ old_state ≠ SysState.hold) then
    (false, sys)
  else
    (true, { sys with state := new_state })

/-- Embeds `system_trigger_alarm` (system_state.c).  The HAL calls
(`hal_stepper_enable(false)`, `hal_spindle_set(OFF)`) are external side
effects; the planner queue is cleared. -/
def system_trigger_alarm (sys : SystemCtx) (a : SysAlarm) : SystemCtx :=
  { sys with state := SysState.alarm, alarm := a, planner := [] }

/-- Embeds `system_clear_alarm` (system_state.c lines 189-200). -/
def system_clear_alarm (sys : SystemCtx) : Bool × SystemCtx :=
  if sys.state ≠ SysState.alarm then
    (false, sys)
  else
    (true, { sys with alarm := SysAlarm.none, state := SysState.idle })

/-! ## G-code line parsing (gcode.c: parse helpers, gcode_parse_line)

The parser is embedded over `List Char`.  Numeric words use the libc
conversions `strtol`/`strtof`: leading whitespace is skipped, an
optional sign is read, and the call fails when no digit is consumed.
`strtof`'s hexadecimal / infinity / nan literal forms never occur in
G-code input and are not modelled. -/

/-- `isspace` for the characters that can occur in a G-code line. -/
def isWsChar (c : Char) : Bool :=
  c = ' ' ∨ c = '\t' ∨ c = '\n' ∨ c = '\r' ∨ c = '\x0b' ∨ c = '\x0c'

/-- Decimal digit test. -/
def isDigitCh (c : Char) : Bool :=
  '0' ≤ c ∧ c ≤ '9'

/-- `toupper` for ASCII. -/
def toUpperCh (c : Char) : Char :=
  if 'a' ≤ c ∧ c ≤ 'z' then Char.ofNat (c.toNat - 32) else c

/-- Value of a digit string. -/
def digitsVal (ds : List Char) : Nat :=
  ds.foldl (fun a c => 10 * a + (c.toNat - 48)) 0

/-- Optional sign at the head of a number; returns the sign and the
remaining characters. -/
def takeSign (s : List Char) : Int × List Char :=
  match s with
  | '+' :: t => (1, t)
  | '-' :: t => (-1, t)
  | t => (1, t)

/-- Embeds `parse_int` (gcode.c), i.e. `strtol(ptr, &end, 10)`:
returns `none` when no digits are consumed (`end == ptr`). -/
def parse_int (s : List Char) : Option (Int × List Char) :=
  let s1 := s.dropWhile isWsChar
  let sg := takeSign s1
  let ds := sg.2.takeWhile isDigitCh
  if ds = [] then none
  else some (sg.1 * (digitsVal ds : Int), sg.2.dropWhile isDigitCh)

/-- Exponent part of `strtof`: consumed only when a well-formed
exponent (`e`/`E`, optional sign, at least one digit) follows. -/
def parseExp (s : List Char) : Int × List Char :=
  match s with
  | c :: t =>
    if c = 'e' ∨ c = 'E' then
      let sg := takeSign t
      let ds := sg.2.takeWhile isDigitCh
      if ds = [] then (0, s)
      else (sg.1 * (digitsVal ds : Int), sg.2.dropWhile isDigitCh)
    else (0, s)
  | [] => (0, [])

/-- Embeds `parse_float` (gcode.c), i.e. `strtof(ptr, &end)` on the
decimal grammar; fails when no digit appears in the significand.
The conversion is exact over `ℚ` (the C code rounds to `float`; the
literals in the verified inputs are exactly representable). -/
def parse_float (s : List Char) : Option (ℚ × List Char) :=
  let s1 := s.dropWhile isWsChar
  let sg := takeSign s1
  let ds := sg.2.takeWhile isDigitCh
  let s3 := sg.2.dropWhile isDigitCh
  let fr : List Char × List Char :=
    match s3 with
    | '.' :: t => (t.takeWhile isDigitCh, t.dropWhile isDigitCh)
    | t => ([], t)
  if ds = [] ∧ fr.1 = [] then none
  else
    let mantissa : ℚ :=
      (digitsVal ds : ℚ) + (digitsVal fr.1 : ℚ) / ((10 : ℚ) ^ fr.1.length)
    let ex := parseExp fr.2
    some ((sg.1 : ℚ) * mantissa * (10 : ℚ) ^ ex.1, ex.2)

/-- One step of `gcode_parse_line`'s word loop for a value word:
parse a float into the given field. -/
def floatWord (rest : List Char)
    (set : ℚ → GcodeBlock) : Option (GcodeBlock × List Char) :=
  match parse_float rest with
  | none => none
  | some (v, r2) => some (set v, r2)

/-- The word loop of `gcode_parse_line` (gcode.c lines 90-168).  The
fuel argument only bounds recursion; each iteration consumes at least
the letter character, so `line.length + 1` fuel never runs out. -/
def parseWords : Nat → List Char → GcodeBlock → Option GcodeBlock
  | 0, _, _ => none
  | fuel + 1, s, b =>
    let s1 := s.dropWhile isWsChar
    match s1 with
    | [] => some b
    | c :: rest =>
      let letter := toUpperCh c
      if letter = 'G' then
        match parse_int rest with
        | none => none
        | some (n, r2) =>
          parseWords fuel r2 { b with g_code := n, has_g := true }
      else if letter = 'M' then
        match parse_int rest with
        | none => none
        | some (n, r2) =>
          parseWords fuel r2 { b with m_code := n, has_m := true }
      else if letter = 'X' then
        match floatWord rest (fun v => { b with x := v, has_x := true }) with
        | none => none
        | some (b2, r2) => parseWords fuel r2 b2
      else if letter = 'Y' then
        match floatWord rest (fun v => { b with y := v, has_y := true }) with
        | none => none
        | some (b2, r2) => parseWords fuel r2 b2
      else if letter = 'F' then
        match floatWord rest (fun v => { b with f := v, has_f := true }) with
        | none => none
        | some (b2, r2) => parseWords fuel r2 b2
      else if letter = 'S' then
        match floatWord rest (fun v => { b with s := v, has_s := true }) with
        | none => none
        | some (b2, r2) => parseWords fuel r2 b2
      else if letter = 'P' then
        match floatWord rest (fun v => { b with p := v, has_p := true }) with
        | none => none
        | some (b2, r2) => parseWords fuel r2 b2
      else if letter = 'I' then
        match floatWord rest (fun v => { b with i := v, has_i := true }) with
        | none => none
        | some (b2, r2) => parseWords fuel r2 b2
      else if letter = 'J' then
        match floatWord rest (fun v => { b with j := v, has_j := true }) with
        | none => none
        | some (b2, r2) => parseWords fuel r2 b2
      else if letter = 'R' then
        match floatWord rest (fun v => { b with r := v, has_r := true }) with
        | none => none
        | some (b2, r2) => parseWords fuel r2 b2
      else
        parseWords fuel (rest.dropWhile (fun d => ¬ isWsChar d)) b

/-- Embeds `gcode_parse_line` (gcode.c).  On a malformed numeric
literal the C code returns `INVALID_PARAM` leaving the caller's block
partially written; no caller reads the block in that case, so the
empty block is returned here. -/
def gcode_parse_line (line : List Char) : GStatus × GcodeBlock :=
  match parseWords (line.length + 1) line emptyBlock with
  | none => (GStatus.errInvalidParam, emptyBlock)
  | some b => (GStatus.ok, b)

/-! ## G-code execution (gcode.c) -/

/-- Target of a motion word pair (gcode.c lines 187-196 and 286-292):
absolute mode takes the word value, relative mode adds it. -/
def motionTarget (gc : GcodeState) (b : GcodeBlock) : ℚ × ℚ :=
  if gc.absolute_mode then
    ((if b.has_x then b.x else gc.position_x),
     (if b.has_y then b.y else gc.position_y))
  else
    ((if b.has_x then gc.position_x + b.x else gc.position_x),
     (if b.has_y then gc.position_y + b.y else gc.position_y))

/-- Embeds `execute_motion` (gcode.c lines 176-234).  The
`g_kin.segment_move` loop only yields waypoints to the (absent)
planner hook and does not modify the modal state. -/
def execute_motion (gc : GcodeState) (b : GcodeBlock) :
    GStatus × GcodeState :=
  if b.has_f ∧ b.f ≤ 0 then (GStatus.errInvalidParam, gc)
  else
    let gc1 := if b.has_f then
      { gc with feedrate := b.f, feedrate_set := true } else gc
    let t := motionTarget gc1 b
    if gc1.motion_mode = MotionMode.linear ∧ ¬ gc1.feedrate_set then
      (GStatus.errMissingParam, gc1)
    else
      (GStatus.ok, { gc1 with position_x := t.1, position_y := t.2 })

/-- Embeds `execute_dwell` (gcode.c lines 237-247). -/
def execute_dwell (gc : GcodeState) (b : GcodeBlock) :
    GStatus × GcodeState :=
  if ¬ b.has_p then (GStatus.errMissingParam, gc)
  else if b.p < 0 then (GStatus.errInvalidParam, gc)
  else (GStatus.ok, gc)

/-- Decides `√A + √B ≥ t` for nonnegative rationals `A`, `B` by
squaring twice; used to express the arc generator's
`radius < ARC_RADIUS_MIN_MM` acceptance test exactly over `ℚ`. -/
def sqrtSumGe (A B t : ℚ) : Bool :=
  if t ≤ 0 then true
  else
    let u := t * t - A - B
    if u ≤ 0 then true
    else decide (u * u ≤ 4 * (A * B))

/-- Embeds `execute_arc` (gcode.c lines 270-321) at the level of its
observable effect on the modal state.  The callback
`arc_segment_handler` always returns `true` and overwrites the
position with every segment endpoint, the last of which the generator
snaps to the exact target; so a successful generation sets the
position to the target and a failed one leaves it unchanged.
Generation by `arc_generate_ij` succeeds iff the working radius
`(‖start−centre‖ + ‖end−centre‖)/2` is at least `ARC_RADIUS_MIN_MM`
(= 1/1000), decided rationally by `sqrtSumGe`.  `arc_generate_r`
fails when `|r| < ARC_RADIUS_MIN_MM`, when the half chord exceeds
`|r|`, or when the chord is shorter than `ARC_RADIUS_MIN_MM`; its
constructed centre is at distance exactly `|r|` from both endpoints,
so the delegated generation then succeeds. -/
def execute_arc (gc : GcodeState) (b : GcodeBlock) (_clockwise : Bool) :
    GStatus × GcodeState :=
  if b.has_f ∧ b.f ≤ 0 then (GStatus.errInvalidParam, gc)
  else
    let gc1 := if b.has_f then
      { gc with feedrate := b.f, feedrate_set := true } else gc
    if ¬ gc1.feedrate_set then (GStatus.errMissingParam, gc1)
    else
      let t := motionTarget gc1 b
      if b.has_r then
        let dx := t.1 - gc1.position_x
        let dy := t.2 - gc1.position_y
        let chordSq := dx * dx + dy * dy
        if (1 : ℚ)/1000000 ≤ b.r * b.r ∧
            chordSq ≤ 4 * (b.r * b.r) ∧
            (1 : ℚ)/1000000 ≤ chordSq then
          (GStatus.ok, { gc1 with position_x := t.1, position_y := t.2 })
        else (GStatus.errInvalidTarget, gc1)
      else if b.has_i ∨ b.has_j then
        let iOff := if b.has_i then b.i else 0
        let jOff := if b.has_j then b.j else 0
        let A := iOff * iOff + jOff * jOff
        let cx := gc1.position_x + iOff
        let cy := gc1.position_y + jOff
        let B := (t.1 - cx) * (t.1 - cx) + (t.2 - cy) * (t.2 - cy)
        if sqrtSumGe A B ((2 : ℚ)/1000) then
          (GStatus.ok, { gc1 with position_x := t.1, position_y := t.2 })
        else (GStatus.errInvalidTarget, gc1)
      else (GStatus.errMissingParam, gc1)

/-- Embeds `execute_program_end` (gcode.c lines 324-339). -/
def execute_program_end (gc : GcodeState) (m_code : Int) :
    GStatus × GcodeState :=
  let gc1 := { gc with spindle_state := SpindleState.off,
                       program_complete := true }
  if m_code = 30 then
    (GStatus.ok, { gc1 with position_x := 0, position_y := 0 })
  else (GStatus.ok, gc1)

/-- Embeds `execute_spindle` (gcode.c lines 342-370). -/
def execute_spindle (gc : GcodeState) (m_code : Int) (b : GcodeBlock) :
    GStatus × GcodeState :=
  if m_code = 3 then
    let gc1 := { gc with spindle_state := SpindleState.cw }
    (GStatus.ok, if b.has_s then { gc1 with spindle_speed := b.s } else gc1)
  else if m_code = 4 then
    let gc1 := { gc with spindle_state := SpindleState.ccw }
    (GStatus.ok, if b.has_s then { gc1 with spindle_speed := b.s } else gc1)
  else if m_code = 5 then
    (GStatus.ok, { gc with spindle_state := SpindleState.off })
  else (GStatus.errUnknownCmd, gc)

/-- The G-word dispatch of `gcode_execute_block` (gcode.c lines
378-427). -/
def executeGWord (gc : GcodeState) (b : GcodeBlock) :
    GStatus × GcodeState :=
  if b.g_code = 0 then
    execute_motion { gc with motion_mode := MotionMode.rapid } b
  else if b.g_code = 1 then
    execute_motion { gc with motion_mode := MotionMode.linear } b
  else if b.g_code = 2 then
    execute_arc { gc with motion_mode := MotionMode.arcCW } b true
  else if b.g_code = 3 then
    execute_arc { gc with motion_mode := MotionMode.arcCCW } b false
  else if b.g_code = 4 then
    execute_dwell gc b
  else if b.g_code = 90 then
    (GStatus.ok, { gc with coord_mode := CoordMode.absolute,
                           absolute_mode := true })
  else if b.g_code = 91 then
    (GStatus.ok, { gc with coord_mode := CoordMode.relative,
                           absolute_mode := false })
  else if b.g_code = 94 then
    (GStatus.ok, { gc with feed_mode := FeedMode.unitsPerMin })
  else if b.g_code = 93 then
    (GStatus.ok, { gc with feed_mode := FeedMode.inverseTime })
  else (GStatus.errUnsupportedCmd, gc)

/-- Embeds `gcode_execute_block` (gcode.c lines 372-453): G word
first, then M word, then standalone S word, each stage skipped once a
previous stage returned an error. -/
def gcode_execute_block (gc : GcodeState) (b : GcodeBlock) :
    GStatus × GcodeState :=
  let g := if b.has_g then executeGWord gc b else (GStatus.ok, gc)
  if g.1 ≠ GStatus.ok then g
  else
    let m :=
      if b.has_m then
        if b.m_code = 2 ∨ b.m_code = 30 then
          execute_program_end g.2 b.m_code
        else execute_spindle g.2 b.m_code b
      else (GStatus.ok, g.2)
    if m.1 ≠ GStatus.ok then m
    else if b.has_s ∧ ¬ b.has_m then
      (GStatus.ok, { m.2 with spindle_speed := b.s })
    else (GStatus.ok, m.2)

/-- Embeds `gcode_process_line` (gcode.c lines 455-464). -/
def gcode_process_line (gc : GcodeState) (line : List Char) :
    GStatus × GcodeState :=
  let p := gcode_parse_line line
  if p.1 ≠ GStatus.ok then (p.1, gc)
  else gcode_execute_block gc p.2

/-! ## Supervisor line processing (system_state.c) -/

/-- Embeds `on_line_received` (system_state.c lines 19-42). -/
def on_line_received (sys : SystemCtx) (line : List Char) : SystemCtx :=
  if sys.state = SysState.idle ∨ sys.state = SysState.running then
    let r := gcode_process_line sys.gcode line
    if r.1 = GStatus.ok then
      let sys1 :=
        { sys with
          gcode := r.2
          total_lines_processed := sys.total_lines_processed + 1 }
      if sys1.state = SysState.idle then
        { sys1 with state := SysState.running }
      else sys1
    else
      { sys with gcode := r.2, total_errors := sys.total_errors + 1 }
  else if sys.state = SysState.check then
    { sys with total_lines_processed := sys.total_lines_processed + 1 }
  else
    { sys with total_errors := sys.total_errors + 1 }

/-- Embeds `system_process_line` (system_state.c lines 45-48) for
non-`NULL` arguments; the `NULL` checks live in the `Option` wrapper
`system_process_line_opt`. -/
def system_process_line (sys : SystemCtx) (line : List Char) :
    SystemCtx :=
  on_line_received sys line

/-! ## Protocol line framer (protocol.c)

Bytes are modelled as `Nat` (the C `uint8_t` values).  Delivery is
modelled through the registered callbacks (`on_line`, `on_rt`): the
outputs of a feed are collected, in dispatch order, in a list of
`ProtoOut` events.  The completed-line queue used when no callback is
registered carries the same delivered lines and is not modelled
separately. -/

/-- `PROTOCOL_LINE_MAX` (grbl.h: `GRBL_LINE_MAX`, default 96). -/
def PROTOCOL_LINE_MAX : Nat := 96

/-- `proto_line_status_t`.  `EMPTY` lines are never delivered and so
never appear in an output event. -/
inductive LineStatus
  | ok | overflow
deriving DecidableEq

/-- `proto_rt_cmd_t`. -/
inductive RtCmd
  | reset | statusQuery | feedHold | cycleStart
deriving DecidableEq

/-- `proto_config_t`. -/
structure ProtoConfig where
  allow_dollar_commands : Bool
  strip_paren_comments : Bool
  strip_semicolon_comments : Bool
  to_uppercase : Bool
deriving DecidableEq

/-- An observable output of `protocol_feed_bytes`: a delivered line
(callback `on_line`) or a real-time event (callback `on_rt`). -/
inductive ProtoOut
  | line (text : List Nat) (st : LineStatus)
  | rt (cmd : RtCmd)
deriving DecidableEq

/-- The line-assembly state of `struct protocol` (protocol.c lines
18-22). -/
structure ProtoState where
  cur : List Nat
  cur_overflow : Bool
  in_paren_comment : Bool
deriving DecidableEq

/-- The assembly state after `protocol_init` / `protocol_reset`. -/
def protoInit : ProtoState := ⟨[], false, false⟩

/-- Space or tab (the characters `trim_ws` strips). -/
def isSpaceTab (c : Nat) : Bool := c = 32 ∨ c = 9

/-- Embeds `trim_ws` (protocol.c lines 71-83): strip leading then
trailing spaces and tabs. -/
def trim_ws (s : List Nat) : List Nat :=
  ((s.dropWhile isSpaceTab).reverse.dropWhile isSpaceTab).reverse

/-- `is_printable_ascii`. -/
def isPrintable (c : Nat) : Bool := 32 ≤ c ∧ c ≤ 126

/-- `to_upper` on byte values. -/
def byteUpper (c : Nat) : Nat :=
  if 97 ≤ c ∧ c ≤ 122 then c - 32 else c

/-- Embeds `emit_line` (protocol.c lines 85-122): finalize the current
buffer into a delivered line (or nothing for an empty/ignored line)
and reset the assembly state. -/
def emit_line (cfg : ProtoConfig) (p : ProtoState) :
    ProtoState × List ProtoOut :=
  if p.cur_overflow then
    (protoInit, [ProtoOut.line p.cur LineStatus.overflow])
  else if trim_ws p.cur = [] then (protoInit, [])
  else if ¬ cfg.allow_dollar_commands ∧ (trim_ws p.cur).headI = 36 then
    (protoInit, [])
  else (protoInit, [ProtoOut.line (trim_ws p.cur) LineStatus.ok])

/-- Embeds the nested semicolon-comment loop of `protocol_feed_bytes`
(protocol.c lines 212-218): the remaining bytes of the fed chunk are
scanned for newlines (emitting the line assembled so far) and
real-time bytes only; everything else is discarded.  The outer loop
then breaks, so this runs to the end of the chunk. -/
def semicolonLoop (cfg : ProtoConfig) (p : ProtoState) :
    List Nat → ProtoState × List ProtoOut
  | [] => (p, [])
  | c :: rest =>
    if c = 10 then
      let e := emit_line cfg p
      let r := semicolonLoop cfg e.1 rest
      (r.1, e.2 ++ r.2)
    else if c = 24 then
      let r := semicolonLoop cfg protoInit rest
      (r.1, ProtoOut.rt RtCmd.reset :: r.2)
    else if c = 63 then
      let r := semicolonLoop cfg p rest
      (r.1, ProtoOut.rt RtCmd.statusQuery :: r.2)
    else if c = 33 then
      let r := semicolonLoop cfg p rest
      (r.1, ProtoOut.rt RtCmd.feedHold :: r.2)
    else if c = 126 then
      let r := semicolonLoop cfg p rest
      (r.1, ProtoOut.rt RtCmd.cycleStart :: r.2)
    else semicolonLoop cfg p rest

/-- The append stage of `protocol_feed_bytes` (protocol.c lines
223-231): uppercase if configured, append while there is room, else
set the overflow flag and discard the byte. -/
def appendByte (cfg : ProtoConfig) (p : ProtoState) (c : Nat) :
    ProtoState :=
  let ch := if cfg.to_uppercase then byteUpper c else c
  if p.cur.length < PROTOCOL_LINE_MAX then { p with cur := p.cur ++ [ch] }
  else { p with cur_overflow := true }

/-- Embeds `protocol_feed_bytes` (protocol.c lines 156-232) for one
fed chunk, returning the final assembly state and the outputs in
dispatch order.  The `NULL` checks live in the `Option` wrapper
`protocol_feed_bytes_opt`. -/
def protocol_feed_bytes (cfg : ProtoConfig) (p : ProtoState) :
    List Nat → ProtoState × List ProtoOut
  | [] => (p, [])
  | c :: rest =>
    if c = 24 then
      let r := protocol_feed_bytes cfg protoInit rest
      (r.1, ProtoOut.rt RtCmd.reset :: r.2)
    else if c = 63 then
      let r := protocol_feed_bytes cfg p rest
      (r.1, ProtoOut.rt RtCmd.statusQuery :: r.2)
    else if c = 33 then
      let r := protocol_feed_bytes cfg p rest
      (r.1, ProtoOut.rt RtCmd.feedHold :: r.2)
    else if c = 126 then
      let r := protocol_feed_bytes cfg p rest
      (r.1, ProtoOut.rt RtCmd.cycleStart :: r.2)
    else if c = 10 then
      let e := emit_line cfg p
      let r := protocol_feed_bytes cfg e.1 rest
      (r.1, e.2 ++ r.2)
    else if c = 13 then
      protocol_feed_bytes cfg p rest
    else if ¬ (isPrintable c ∨ c = 9) then
      protocol_feed_bytes cfg p rest
    else if cfg.strip_paren_comments ∧ p.in_paren_comment then
      if c = 41 then
        protocol_feed_bytes cfg { p with in_paren_comment := false } rest
      else protocol_feed_bytes cfg p rest
    else if cfg.strip_paren_comments ∧ c = 40 then
      protocol_feed_bytes cfg { p with in_paren_comment := true } rest
    else if cfg.strip_semicolon_comments ∧ c = 59 then
      semicolonLoop cfg p rest
    else
      protocol_feed_bytes cfg (appendByte cfg p c) rest

/-- The configuration the firmware uses for G-code input: dollar
commands refused, both comment styles stripped, uppercasing on. -/
def protoCfg : ProtoConfig := ⟨false, true, true, true⟩

/-! ## Arc segmenter (arc.c), over ℝ

The C `float` arithmetic (`sqrtf`, `atan2f`, `cosf`, `sinf`) is
idealised as exact real arithmetic.  The per-segment callback is
specialised to an always-continue callback (the executor's
`arc_segment_handler` always returns true), so a generation run is
the list of callback invocations in order. -/

/-- `ARC_SEGMENT_LEN_MM` (arc.h): desired chord length, 0.5 mm. -/
noncomputable def ARC_SEGMENT_LEN_MM : ℝ := 1/2

/-- `ARC_RADIUS_MIN_MM` (arc.h): degenerate-radius threshold,
0.001 mm. -/
noncomputable def ARC_RADIUS_MIN_MM : ℝ := 1/1000

/-- `atan2f(y, x)`, idealised: the argument of the complex number
`x + y·i`, in (-π, π]. -/
noncomputable def atan2 (y x : ℝ) : ℝ := Complex.arg ⟨x, y⟩

/-- The working radius of `arc_generate_ij` (arc.c lines 24-36): the
average of the start and end distances from the centre
`(sx + i, sy + j)`. -/
noncomputable def arcRadiusIJ (sx sy ex ey i j : ℝ) : ℝ :=
  (1/2) * (Real.sqrt ((sx - (sx + i)) * (sx - (sx + i)) +
                      (sy - (sy + j)) * (sy - (sy + j))) +
           Real.sqrt ((ex - (sx + i)) * (ex - (sx + i)) +
                      (ey - (sy + j)) * (ey - (sy + j))))

/-- The angular travel of `arc_generate_ij` (arc.c lines 38-59):
signed sweep folded into (0, 2π], with the full-circle override when
start and end coincide to within `ARC_RADIUS_MIN_MM`. -/
noncomputable def arcTravelIJ (sx sy ex ey i j : ℝ) (cw : Bool) : ℝ :=
  let ts := atan2 (sy - (sy + j)) (sx - (sx + i))
  let te := atan2 (ey - (sy + j)) (ex - (sx + i))
  let a0 := if cw then ts - te else te - ts
  let a1 := if a0 ≤ 0 then a0 + 2 * Real.pi else a0
  if |ex - sx| < ARC_RADIUS_MIN_MM ∧ |ey - sy| < ARC_RADIUS_MIN_MM then
    2 * Real.pi
  else a1

/-- The segment count of `arc_generate_ij` (arc.c lines 61-65):
`(int)(arc_length / ARC_SEGMENT_LEN_MM)` — truncation equals the
floor since the arc length is nonnegative — raised to at least 1 and
clamped to 10000. -/
noncomputable def numSegmentsIJ (sx sy ex ey i j : ℝ) (cw : Bool) : ℤ :=
  let n := ⌊arcRadiusIJ sx sy ex ey i j * arcTravelIJ sx sy ex ey i j cw /
            ARC_SEGMENT_LEN_MM⌋
  if n < 1 then 1 else if n > 10000 then 10000 else n

/-- The emission loop of `arc_generate_ij` (arc.c lines 71-87), by
remaining iteration count: every non-final iteration advances the
angle by `step` and emits the point on the circle; the final
iteration emits the exact endpoint. -/
noncomputable def arcSegPoints (cx cy r step ex ey : ℝ) :
    ℕ → ℝ → List (ℝ × ℝ)
  | 0, _ => []
  | 1, _ => [(ex, ey)]
  | k + 2, th =>
    (cx + r * Real.cos (th + step), cy + r * Real.sin (th + step)) ::
      arcSegPoints cx cy r step ex ey (k + 1) (th + step)

/-- The full list of points emitted by an accepted `arc_generate_ij`
run. -/
noncomputable def arcPointsIJ (sx sy ex ey i j : ℝ) (cw : Bool) :
    List (ℝ × ℝ) :=
  let n := numSegmentsIJ sx sy ex ey i j cw
  let travel := arcTravelIJ sx sy ex ey i j cw
  let step := if cw then -(travel / (n : ℝ)) else travel / (n : ℝ)
  arcSegPoints (sx + i) (sy + j) (arcRadiusIJ sx sy ex ey i j) step ex ey
    n.toNat (atan2 (sy - (sy + j)) (sx - (sx + i)))

/-- Embeds `arc_generate_ij` (arc.c lines 16-90) with an
always-continue callback: fails (returns `none`, the C `false`) only
when the working radius is below `ARC_RADIUS_MIN_MM`; otherwise the
trace of callback invocations. -/
noncomputable def arc_generate_ij (sx sy ex ey i j : ℝ) (cw : Bool) :
    Option (List (ℝ × ℝ)) :=
  if arcRadiusIJ sx sy ex ey i j < ARC_RADIUS_MIN_MM then none
  else some (arcPointsIJ sx sy ex ey i j cw)

/-! ## Stepper engine (stepper.c)

`uint32_t` times are `Nat` with explicit mod-2^32 subtraction; the
HAL clock reads `hal_micros()` / `hal_millis()` are passed in as the
`now_us` / `now_ms` arguments; HAL pulse, direction and enable calls
are external side effects. -/

/-- Mod-2^32 unsigned subtraction (`now - then` on `uint32_t`). -/
def usub32 (a b : Nat) : Nat :=
  (2 ^ 32 + a % 2 ^ 32 - b % 2 ^ 32) % 2 ^ 32

/-- `stepper_state_t`. -/
inductive StepperPhase
  | idle | running | hold | stopping
deriving DecidableEq

/-- `stepper_config_t`. -/
structure StepperConfig where
  step_pulse_us : Nat
  step_idle_delay_us : Nat
  dir_setup_us : Nat
  motors_enabled : Bool
  idle_disable : Bool
  idle_timeout_ms : Nat

/-- Embeds `stepper_context_t` (stepper.h).  `HAL_AXIS_MAX` is defined
in the absent hal.h; modelled from the spec: three axes X, Y, Z.  The
`current_block` pointer is an `Option`. -/
structure StepperCtx where
  state : StepperPhase
  config : StepperConfig
  current_block : Option PlannerBlock
  step_count : Fin 3 → Nat
  target_steps : Fin 3 → Nat
  position : Fin 3 → Int
  last_step_time_us : Nat
  step_interval_us : Nat
  current_speed : ℚ
  idle_start_time_ms : Nat

/-- Whether the loaded block's direction bit for an axis is set
(`direction_bits & (1 << axis)`), with the C guard
`ctx->current_block && ...`. -/
def dirPositive (blk : Option PlannerBlock) (a : Fin 3) : Bool :=
  match blk with
  | none => false
  | some b => b.direction_bits / 2 ^ (a : Nat) % 2 = 1

/-- Embeds `stepper_update` (stepper.c lines 696-773) for a non-`NULL`
context; the `NULL` check lives in `stepper_update_opt`. -/
def stepper_update (ctx : StepperCtx) (now_us now_ms : Nat) : StepperCtx :=
  match ctx.state with
  | StepperPhase.idle =>
    if ctx.config.idle_disable ∧ ctx.config.motors_enabled then
      if 0 < ctx.idle_start_time_ms ∧
          ctx.config.idle_timeout_ms ≤ usub32 now_ms ctx.idle_start_time_ms
      then
        { ctx with config := { ctx.config with motors_enabled := false } }
      else ctx
    else ctx
  | StepperPhase.running =>
    if ctx.step_interval_us ≤ usub32 now_us ctx.last_step_time_us then
      let needs : Fin 3 → Bool := fun a =>
        ctx.step_count a < ctx.target_steps a
      let ctx1 :=
        { ctx with
          step_count := fun a =>
            if needs a then ctx.step_count a + 1 else ctx.step_count a
          position := fun a =>
            if needs a then
              (if dirPositive ctx.current_block a then ctx.position a + 1
               else ctx.position a - 1)
            else ctx.position a
          last_step_time_us := now_us }
      if ∃ a, needs a then ctx1
      else
        { ctx1 with
          current_block := none
          state := StepperPhase.idle
          current_speed := 0
          idle_start_time_ms := now_ms }
    else ctx
  | StepperPhase.hold => ctx
  | StepperPhase.stopping =>
    { ctx with
      state := StepperPhase.idle
      current_block := none
      current_speed := 0
      idle_start_time_ms := now_ms }

/-! ## `NULL`-checked entry points (the C pointer guards)

Each public entry point first tests its pointer arguments; `Option`
models the nullable pointers. -/

/-- `gcode_execute_block`'s guard (gcode.c lines 372-373):
`if (!gc || !block) return GCODE_ERR_INVALID_PARAM;`. -/
def gcode_execute_block_opt :
    Option GcodeState → Option GcodeBlock → GStatus × Option GcodeState
  | some gc, some b =>
    ((gcode_execute_block gc b).1, some (gcode_execute_block gc b).2)
  | gc?, _ => (GStatus.errInvalidParam, gc?)

/-- `protocol_feed_bytes`'s guard (protocol.c lines 156-157):
`if (!p || !data) return;`. -/
def protocol_feed_bytes_opt (cfg : ProtoConfig) :
    Option ProtoState → Option (List Nat) →
      Option ProtoState × List ProtoOut
  | some p, some data =>
    (some (protocol_feed_bytes cfg p data).1,
     (protocol_feed_bytes cfg p data).2)
  | p?, _ => (p?, [])

/-- `system_process_line`'s guard (system_state.c lines 45-48):
`if (!sys || !line) return;`. -/
def system_process_line_opt :
    Option SystemCtx → Option (List Char) → Option SystemCtx
  | some sys, some line => some (system_process_line sys line)
  | sys?, _ => sys?

/-- `stepper_update`'s guard (stepper.c lines 696-699):
`if (!ctx) return;`. -/
def stepper_update_opt :
    Option StepperCtx → Nat → Nat → Option StepperCtx
  | some ctx, now_us, now_ms => some (stepper_update ctx now_us now_ms)
  | none, _, _ => none

/-! ## Concrete scenarios used by the end-to-end claims -/

/-- The seven-line basic-engrave program of spec §8 scenario 1. -/
def basicEngraveLines : List (List Char) :=
  ["G90".toList, "G00 X0 Y0".toList, "M03 S1500".toList,
   "G01 X50 Y0 F200".toList, "G01 X50 Y50".toList,
   "M05".toList, "M30".toList]

/-- A freshly initialized system after feeding the basic-engrave
program line by line. -/
def basic_engrave_run : SystemCtx :=
  basicEngraveLines.foldl system_process_line system_init

/-- The literal two-line sequence of spec §8 "Absolute/relative
consistency", executed from the initial modal state. -/
def absRelLiteralRun : GcodeState :=
  (gcode_process_line
    (gcode_process_line gcode_init ("G90 X10 Y20".toList)).2
    ("G91 X5 Y10".toList)).2

/-- The same moves with the coordinate-mode switches on their own
lines and the motion on G00 lines (the form the repository's own
tests use). -/
def absRelSplitRun : GcodeState :=
  (["G90".toList, "G00 X10 Y20".toList, "G91".toList,
    "G00 X5 Y10".toList].foldl
      (fun s l => (gcode_process_line s l).2) gcode_init)

/-- A freshly initialized system put into Check mode. -/
def checkModeSys : SystemCtx :=
  { system_init with state := SysState.check }

end CNC

namespace CNC

/-! ## Claim theorems

Batteries marks the `Rat` field operations `@[irreducible]`, which
blocks `decide`'s evaluation of concrete program runs; within this
development they are restored to their definitional behaviour. -/

section ClaimTheorems

attribute [local semireducible] Rat.add Rat.sub Rat.mul Rat.inv

/-- C1: no state transition out of Alarm succeeds except to Idle via
an explicit clear: for every requested target other than Idle,
`system_set_state` from Alarm returns false and leaves the context
(and so the state) unchanged; `system_clear_alarm` from Alarm returns
true, setting the state to Idle and the alarm code to None; and after
`system_trigger_alarm HardLimit`, `system_set_state Running` returns
false with the state still Alarm, while after clearing it returns
true. -/
theorem alarm_latching :
    (∀ (sys : SystemCtx) (target : SysState), sys.state = SysState.alarm →
      target ≠ SysState.idle → system_set_state sys target = (false, sys))
  ∧ (∀ sys : SystemCtx, sys.state = SysState.alarm →
      system_clear_alarm sys =
        (true, { sys with alarm := SysAlarm.none, state := SysState.idle }))
  ∧ (∀ sys : SystemCtx,
      (system_set_state (system_trigger_alarm sys SysAlarm.hardLimit)
        SysState.running).1 = false
    ∧ (system_set_state (system_trigger_alarm sys SysAlarm.hardLimit)
        SysState.running).2.state = SysState.alarm
    ∧ (system_set_state
        (system_clear_alarm
          (system_trigger_alarm sys SysAlarm.hardLimit)).2
        SysState.running).1 = true) := by
  refine ⟨?_, ?_, ?_⟩
  · intro sys target h ht
    simp [system_set_state, h, ht]
  · intro sys h
    simp [system_clear_alarm, h]
  · intro sys
    simp [system_set_state, system_clear_alarm, system_trigger_alarm]

/-- Closed instance of `alarm_latching`: from a freshly initialized
system driven into Alarm, requesting Hold fails and clearing then
allows Running. -/
theorem alarm_latching_witness :
    (system_init.state = SysState.alarm → False)
  ∧ system_set_state (system_trigger_alarm system_init SysAlarm.hardLimit)
      SysState.hold =
      (false, system_trigger_alarm system_init SysAlarm.hardLimit)
  ∧ (system_set_state
      (system_clear_alarm
        (system_trigger_alarm system_init SysAlarm.hardLimit)).2
      SysState.running).1 = true :=
  ⟨by decide,
   alarm_latching.1 (system_trigger_alarm system_init SysAlarm.hardLimit)
     SysState.hold (by decide) (by decide),
   (alarm_latching.2.2 system_init).2.2⟩

/-- C2: feeding the seven basic-engrave lines to a freshly initialized
system leaves the position at (0,0) after M30, the spindle Off, the
program-complete flag set, and exactly 7 lines processed (with no
errors). -/
theorem basic_engrave :
    basic_engrave_run.gcode.position_x = 0
  ∧ basic_engrave_run.gcode.position_y = 0
  ∧ basic_engrave_run.gcode.spindle_state = SpindleState.off
  ∧ basic_engrave_run.gcode.program_complete = true
  ∧ basic_engrave_run.total_lines_processed = 7
  ∧ basic_engrave_run.total_errors = 0 := by
  decide

/-- C3 counterexample: the literal lines "G90 X10 Y20" / "G91 X5 Y10"
do NOT leave the position at (15, 30); G90/G91 blocks in
`gcode_execute_block` only set the coordinate mode and discard the
axis words, so the position stays at the origin. -/
theorem abs_rel_literal_counterexample :
    ¬ (absRelLiteralRun.position_x = 15 ∧ absRelLiteralRun.position_y = 30) := by
  decide

/-- C3 (amended): the literal two-line sequence leaves the position
unchanged at (0,0) because G90/G91 blocks do not execute motion; the
same coordinates commanded through motion blocks — G90 / G00 X10 Y20 /
G91 / G00 X5 Y10 — do yield the summed position (15, 30). -/
theorem abs_rel_consistency :
    absRelLiteralRun.position_x = 0
  ∧ absRelLiteralRun.position_y = 0
  ∧ absRelSplitRun.position_x = 15
  ∧ absRelSplitRun.position_y = 30 := by
  decide

/-- C6 counterexample: in Check mode `on_line_received` increments
`total_lines_processed` even when the parse fails — the line "X"
yields `INVALID_PARAM` from `gcode_parse_line`, yet the counter is
still incremented — refuting "incremented exactly when the parse
succeeds". -/
theorem check_mode_counterexample :
    (gcode_parse_line ("X".toList)).1 = GStatus.errInvalidParam
  ∧ (system_process_line checkModeSys ("X".toList)).total_lines_processed
      = checkModeSys.total_lines_processed + 1 := by
  decide

/-- C6 (amended): in the Check state `system_process_line` parses
only; `total_lines_processed` is incremented unconditionally
(regardless of the parse status), the block is never executed, and
the rest of the context — in particular the modal state — is
unchanged; processing "G01 X10 Y10 F100" in Check parses OK,
increments the counter and leaves the position unchanged. -/
theorem check_mode_parse_only :
    (∀ (sys : SystemCtx) (line : List Char), sys.state = SysState.check →
      system_process_line sys line =
        { sys with
          total_lines_processed := sys.total_lines_processed + 1 })
  ∧ (gcode_parse_line ("G01 X10 Y10 F100".toList)).1 = GStatus.ok
  ∧ (system_process_line checkModeSys
      ("G01 X10 Y10 F100".toList)).total_lines_processed
      = checkModeSys.total_lines_processed + 1
  ∧ (system_process_line checkModeSys
      ("G01 X10 Y10 F100".toList)).gcode.position_x
      = checkModeSys.gcode.position_x
  ∧ (system_process_line checkModeSys
      ("G01 X10 Y10 F100".toList)).gcode.position_y
      = checkModeSys.gcode.position_y
  ∧ (system_process_line checkModeSys
      ("G01 X10 Y10 F100".toList)).gcode = checkModeSys.gcode := by
  refine ⟨?_, by decide, by decide, by decide, by decide, by decide⟩
  intro sys line h
  simp [system_process_line, on_line_received, h]

/-- Closed instance of `check_mode_parse_only` at the Check-mode
system and the scenario line. -/
theorem check_mode_parse_only_witness :
    checkModeSys.state = SysState.check
  ∧ system_process_line checkModeSys ("G01 X10 Y10 F100".toList) =
      { checkModeSys with
        total_lines_processed := checkModeSys.total_lines_processed + 1 } :=
  ⟨by decide,
   check_mode_parse_only.1 checkModeSys ("G01 X10 Y10 F100".toList)
     (by decide)⟩

/-- C9: `gcode_execute_block` is not atomic on error.  Concretely,
executing "G02 X10 F150 M03" from the initial state returns
MissingParam (no I/J/R word) yet has already updated the feedrate to
150, set `feedrate_set`, and set the motion mode to ArcCW, while the
M03 word was not applied (spindle still Off); with "G02 X10 F150
S500" the standalone S word is likewise not applied.  In general,
once the G word of a block fails, the whole block's result is exactly
the G word's result: the M and S words are skipped. -/
theorem gcode_block_not_atomic :
    (gcode_process_line gcode_init ("G02 X10 F150 M03".toList)).1
      = GStatus.errMissingParam
  ∧ (gcode_process_line gcode_init ("G02 X10 F150 M03".toList)).2.feedrate
      = 150
  ∧ (gcode_process_line gcode_init
      ("G02 X10 F150 M03".toList)).2.feedrate_set = true
  ∧ (gcode_process_line gcode_init
      ("G02 X10 F150 M03".toList)).2.motion_mode = MotionMode.arcCW
  ∧ (gcode_process_line gcode_init
      ("G02 X10 F150 M03".toList)).2.spindle_state = SpindleState.off
  ∧ (gcode_process_line gcode_init ("G02 X10 F150 S500".toList)).1
      = GStatus.errMissingParam
  ∧ (gcode_process_line gcode_init
      ("G02 X10 F150 S500".toList)).2.spindle_speed = 0
  ∧ (∀ (gc : GcodeState) (b : GcodeBlock), b.has_g = true →
      (executeGWord gc b).1 ≠ GStatus.ok →
      gcode_execute_block gc b = executeGWord gc b) := by
  refine ⟨by decide, by decide, by decide, by decide, by decide,
          by decide, by decide, ?_⟩
  intro gc b hg herr
  simp [gcode_execute_block, hg, herr]

/-- Closed instance of the general skip clause of
`gcode_block_not_atomic`: for the parsed block of "G02 F150 M03" the
whole-block result equals the G word's result. -/
theorem gcode_block_not_atomic_witness :
    gcode_execute_block gcode_init
      (gcode_parse_line ("G02 F150 M03".toList)).2 =
    executeGWord gcode_init (gcode_parse_line ("G02 F150 M03".toList)).2 :=
  gcode_block_not_atomic.2.2.2.2.2.2.2 gcode_init
    (gcode_parse_line ("G02 F150 M03".toList)).2 (by decide) (by decide)

end ClaimTheorems

set_option maxHeartbeats 2000000 in
/-- C8: `planner_block_validate` rejects every block with a negative
speed, acceleration, max entry speed or distance; rejects
entry speed above a positive max entry speed; rejects entry or exit
speed above a positive nominal speed; and accepts the all-zero
complete-stop sentinel block. -/
theorem planner_validation (b : PlannerBlock) :
    ((b.entry_speed < 0 ∨ b.nominal_speed < 0 ∨ b.exit_speed < 0 ∨
      b.acceleration < 0 ∨ b.max_entry_speed < 0 ∨ b.millimeters < 0) →
        planner_block_validate b = false)
  ∧ (0 < b.max_entry_speed → b.max_entry_speed < b.entry_speed →
        planner_block_validate b = false)
  ∧ (0 < b.nominal_speed → b.nominal_speed < b.entry_speed →
        planner_block_validate b = false)
  ∧ (0 < b.nominal_speed → b.nominal_speed < b.exit_speed →
        planner_block_validate b = false)
  ∧ planner_block_validate planner_block_init = true := by
  refine ⟨?_, ?_, ?_, ?_, by decide⟩ <;>
    · intros
      unfold planner_block_validate
      split_ifs <;> first | rfl | tauto

/-- Closed instance of `planner_validation`: a block with negative
entry speed is rejected, as is one whose entry speed exceeds its
positive max entry speed. -/
theorem planner_validation_witness :
    planner_block_validate ⟨-1, 0, 0, 0, 0, 0, 0, 0, 0, 0⟩ = false
  ∧ planner_block_validate ⟨5, 0, 0, 0, 2, 0, 0, 0, 0, 0⟩ = false :=
  ⟨(planner_validation ⟨-1, 0, 0, 0, 0, 0, 0, 0, 0, 0⟩).1
      (Or.inl (by norm_num)),
   (planner_validation ⟨5, 0, 0, 0, 2, 0, 0, 0, 0, 0⟩).2.1
      (by norm_num) (by norm_num)⟩

/-! ## Protocol layer: supporting lemmas -/

/-- Trimming never lengthens a line. -/
theorem trim_ws_length_le (s : List Nat) :
    (trim_ws s).length ≤ s.length := by
  unfold trim_ws
  rw [List.length_reverse]
  calc ((s.dropWhile isSpaceTab).reverse.dropWhile isSpaceTab).length
      ≤ (s.dropWhile isSpaceTab).reverse.length :=
        (List.dropWhile_sublist _).length_le
    _ = (s.dropWhile isSpaceTab).length := List.length_reverse _
    _ ≤ s.length := (List.dropWhile_sublist _).length_le

/-- `emit_line` always resets the assembly state. -/
theorem emit_line_fst (cfg : ProtoConfig) (p : ProtoState) :
    (emit_line cfg p).1 = protoInit := by
  unfold emit_line
  split_ifs <;> rfl

theorem emit_line_line_le (cfg : ProtoConfig) (p : ProtoState)
    (h : p.cur.length ≤ PROTOCOL_LINE_MAX) :
    ∀ t st, ProtoOut.line t st ∈ (emit_line cfg p).2 →
      t.length ≤ PROTOCOL_LINE_MAX := by
  intro t st hm
  unfold emit_line at hm
  split_ifs at hm <;> simp at hm
  · exact hm.1 ▸ h
  · exact hm.1 ▸ le_trans (trim_ws_length_le _) h

/-- The semicolon-comment loop keeps the buffer within bounds and only
delivers bounded lines. -/
theorem semicolonLoop_le (cfg : ProtoConfig) :
    ∀ (data : List Nat) (p : ProtoState),
      p.cur.length ≤ PROTOCOL_LINE_MAX →
      (semicolonLoop cfg p data).1.cur.length ≤ PROTOCOL_LINE_MAX ∧
      ∀ t st, ProtoOut.line t st ∈ (semicolonLoop cfg p data).2 →
        t.length ≤ PROTOCOL_LINE_MAX := by
  intro data
  induction data with
  | nil =>
    intro p h
    exact ⟨h, by simp [semicolonLoop]⟩
  | cons c rest ih =>
    intro p h
    have hinit : (protoInit : ProtoState).cur.length ≤ PROTOCOL_LINE_MAX := by
      decide
    unfold semicolonLoop
    split_ifs
    · have hst : (emit_line cfg p).1.cur.length ≤ PROTOCOL_LINE_MAX := by
        rw [emit_line_fst]
        exact hinit
      refine ⟨(ih _ hst).1, ?_⟩
      intro t st hm
      simp only [List.mem_append] at hm
      rcases hm with hm | hm
      · exact emit_line_line_le cfg p h t st hm
      · exact (ih _ hst).2 t st hm
    · refine ⟨(ih protoInit hinit).1, ?_⟩
      intro t st hm
      rcases List.mem_cons.mp hm with hm | hm
      · cases hm
      · exact (ih protoInit hinit).2 t st hm
    · refine ⟨(ih p h).1, ?_⟩
      intro t st hm
      rcases List.mem_cons.mp hm with hm | hm
      · cases hm
      · exact (ih p h).2 t st hm
    · refine ⟨(ih p h).1, ?_⟩
      intro t st hm
      rcases List.mem_cons.mp hm with hm | hm
      · cases hm
      · exact (ih p h).2 t st hm
    · refine ⟨(ih p h).1, ?_⟩
      intro t st hm
      rcases List.mem_cons.mp hm with hm | hm
      · cases hm
      · exact (ih p h).2 t st hm
    · exact ih p h

/-- The append stage never grows the buffer beyond the bound. -/
theorem appendByte_le (cfg : ProtoConfig) (p : ProtoState) (c : Nat)
    (h : p.cur.length ≤ PROTOCOL_LINE_MAX) :
    (appendByte cfg p c).cur.length ≤ PROTOCOL_LINE_MAX := by
  unfold appendByte
  split_ifs <;> simp_all <;> omega

/-- `protocol_feed_bytes` keeps the buffer within bounds and only
delivers bounded lines. -/
theorem protocol_feed_le (cfg : ProtoConfig) :
    ∀ (data : List Nat) (p : ProtoState),
      p.cur.length ≤ PROTOCOL_LINE_MAX →
      (protocol_feed_bytes cfg p data).1.cur.length ≤ PROTOCOL_LINE_MAX ∧
      ∀ t st, ProtoOut.line t st ∈ (protocol_feed_bytes cfg p data).2 →
        t.length ≤ PROTOCOL_LINE_MAX := by
  intro data
  induction data with
  | nil =>
    intro p h
    exact ⟨h, by simp [protocol_feed_bytes]⟩
  | cons c rest ih =>
    intro p h
    have hinit : (protoInit : ProtoState).cur.length ≤ PROTOCOL_LINE_MAX := by
      decide
    have hcons : ∀ (q : ProtoState) (cmd : RtCmd),
        q.cur.length ≤ PROTOCOL_LINE_MAX →
        (protocol_feed_bytes cfg q rest).1.cur.length ≤ PROTOCOL_LINE_MAX ∧
        ∀ t st, ProtoOut.line t st ∈
            ProtoOut.rt cmd :: (protocol_feed_bytes cfg q rest).2 →
          t.length ≤ PROTOCOL_LINE_MAX := by
      intro q cmd hq
      refine ⟨(ih q hq).1, ?_⟩
      intro t st hm
      rcases List.mem_cons.mp hm with hm | hm
      · cases hm
      · exact (ih q hq).2 t st hm
    unfold protocol_feed_bytes
    by_cases h24 : c = 24
    · rw [if_pos h24]
      exact hcons protoInit RtCmd.reset hinit
    rw [if_neg h24]
    by_cases h63 : c = 63
    · rw [if_pos h63]
      exact hcons p RtCmd.statusQuery h
    rw [if_neg h63]
    by_cases h33 : c = 33
    · rw [if_pos h33]
      exact hcons p RtCmd.feedHold h
    rw [if_neg h33]
    by_cases h126 : c = 126
    · rw [if_pos h126]
      exact hcons p RtCmd.cycleStart h
    rw [if_neg h126]
    by_cases h10 : c = 10
    · rw [if_pos h10]
      have hst : (emit_line cfg p).1.cur.length ≤ PROTOCOL_LINE_MAX := by
        rw [emit_line_fst]
        exact hinit
      refine ⟨(ih _ hst).1, ?_⟩
      intro t st hm
      rcases List.mem_append.mp hm with hm | hm
      · exact emit_line_line_le cfg p h t st hm
      · exact (ih _ hst).2 t st hm
    rw [if_neg h10]
    by_cases h13 : c = 13
    · rw [if_pos h13]
      exact ih p h
    rw [if_neg h13]
    by_cases hnp : ¬ (isPrintable c ∨ c = 9)
    · rw [if_pos hnp]
      exact ih p h
    rw [if_neg hnp]
    by_cases hpc : cfg.strip_paren_comments ∧ p.in_paren_comment
    · rw [if_pos hpc]
      by_cases h41 : c = 41
      · rw [if_pos h41]
        exact ih _ h
      · rw [if_neg h41]
        exact ih p h
    rw [if_neg hpc]
    by_cases hpo : cfg.strip_paren_comments ∧ c = 40
    · rw [if_pos hpo]
      exact ih _ h
    rw [if_neg hpo]
    by_cases hsemi : cfg.strip_semicolon_comments ∧ c = 59
    · rw [if_pos hsemi]
      exact semicolonLoop_le cfg rest p h
    rw [if_neg hsemi]
    exact ih _ (appendByte_le cfg p c h)

end CNC

namespace CNC

section ProtocolClaims

/-- C4 (the code, evaluated at the failing inputs): a ';' enters the
nested comment loop which does still dispatch real-time bytes and
does emit the pre-';' line on LF, but the loop consumes the REST OF
THE FED CHUNK instead of exiting at the LF: feeding "A;c\nB\n" in one
chunk delivers only the line "A" and discards "B"; and the comment
sub-state is also forgotten between chunks: feeding "A;" then "B\n"
delivers "AB". -/
theorem semicolon_comment_chunk_bug :
    protocol_feed_bytes protoCfg protoInit [65, 59, 99, 10, 66, 10] =
      (protoInit, [ProtoOut.line [65] LineStatus.ok])
  ∧ protocol_feed_bytes protoCfg protoInit [65, 59, 33, 99, 10] =
      (protoInit,
       [ProtoOut.rt RtCmd.feedHold, ProtoOut.line [65] LineStatus.ok])
  ∧ protocol_feed_bytes protoCfg
      (protocol_feed_bytes protoCfg protoInit [65, 59]).1 [66, 10] =
      (protoInit, [ProtoOut.line [65, 66] LineStatus.ok]) := by
  refine ⟨by decide, by decide, by decide⟩

/-- C5: (a) every line delivered by `protocol_feed_bytes` from a state
respecting the buffer bound has length ≤ `PROTOCOL_LINE_MAX`; (b) with
the buffer full, a data byte that reaches the append stage sets the
overflow flag and is discarded; (c) with the overflow flag set, any
byte other than LF and the real-time reset 0x18 (which performs the
specified full reset) leaves the flag set, the buffer unchanged, and
delivers no line; (d) LF with the overflow flag set delivers the
buffer exactly (no trimming) with status OVERFLOW and resets. -/
theorem protocol_length_bound :
    (∀ (cfg : ProtoConfig) (data : List Nat) (p : ProtoState),
       p.cur.length ≤ PROTOCOL_LINE_MAX →
       ∀ t st, ProtoOut.line t st ∈ (protocol_feed_bytes cfg p data).2 →
         t.length ≤ PROTOCOL_LINE_MAX)
  ∧ (∀ (cfg : ProtoConfig) (p : ProtoState) (c : Nat),
       PROTOCOL_LINE_MAX ≤ p.cur.length →
       c ≠ 24 → c ≠ 63 → c ≠ 33 → c ≠ 126 → c ≠ 10 → c ≠ 13 →
       (isPrintable c ∨ c = 9) →
       ¬ (cfg.strip_paren_comments ∧ p.in_paren_comment) →
       ¬ (cfg.strip_paren_comments ∧ c = 40) →
       ¬ (cfg.strip_semicolon_comments ∧ c = 59) →
       protocol_feed_bytes cfg p [c] =
         ({ p with cur_overflow := true }, []))
  ∧ (∀ (cfg : ProtoConfig) (p : ProtoState) (c : Nat),
       p.cur_overflow = true → PROTOCOL_LINE_MAX ≤ p.cur.length →
       c ≠ 10 → c ≠ 24 →
       ((protocol_feed_bytes cfg p [c]).1.cur_overflow = true ∧
        (protocol_feed_bytes cfg p [c]).1.cur = p.cur ∧
        ∀ t st, ProtoOut.line t st ∉ (protocol_feed_bytes cfg p [c]).2))
  ∧ (∀ (cfg : ProtoConfig) (p : ProtoState),
       p.cur_overflow = true →
       protocol_feed_bytes cfg p [10] =
         (protoInit, [ProtoOut.line p.cur LineStatus.overflow])) := by
  refine ⟨?_, ?_, ?_, ?_⟩
  · intro cfg data p h t st hm
    exact (protocol_feed_le cfg data p h).2 t st hm
  · intro cfg p c hlen h24 h63 h33 h126 h10 h13 hpr hpc hpo hsemi
    unfold protocol_feed_bytes
    rw [if_neg h24, if_neg h63, if_neg h33, if_neg h126, if_neg h10,
      if_neg h13, if_neg (not_not_intro hpr), if_neg hpc, if_neg hpo,
      if_neg hsemi]
    unfold appendByte
    rw [if_neg (by omega)]
    rfl
  · intro cfg p c hov hlen h10 h24
    unfold protocol_feed_bytes
    by_cases h63 : c = 63
    · rw [if_neg h24, if_pos h63]
      exact ⟨hov, rfl, by simp [protocol_feed_bytes]⟩
    by_cases h33 : c = 33
    · rw [if_neg h24, if_neg h63, if_pos h33]
      exact ⟨hov, rfl, by simp [protocol_feed_bytes]⟩
    by_cases h126 : c = 126
    · rw [if_neg h24, if_neg h63, if_neg h33, if_pos h126]
      exact ⟨hov, rfl, by simp [protocol_feed_bytes]⟩
    rw [if_neg h24, if_neg h63, if_neg h33, if_neg h126, if_neg h10]
    by_cases h13 : c = 13
    · rw [if_pos h13]
      exact ⟨hov, rfl, by simp [protocol_feed_bytes]⟩
    rw [if_neg h13]
    by_cases hnp : ¬ (isPrintable c ∨ c = 9)
    · rw [if_pos hnp]
      exact ⟨hov, rfl, by simp [protocol_feed_bytes]⟩
    rw [if_neg hnp]
    by_cases hpc : cfg.strip_paren_comments ∧ p.in_paren_comment
    · rw [if_pos hpc]
      by_cases h41 : c = 41
      · rw [if_pos h41]
        exact ⟨hov, rfl, by simp [protocol_feed_bytes]⟩
      · rw [if_neg h41]
        exact ⟨hov, rfl, by simp [protocol_feed_bytes]⟩
    rw [if_neg hpc]
    by_cases hpo : cfg.strip_paren_comments ∧ c = 40
    · rw [if_pos hpo]
      exact ⟨hov, rfl, by simp [protocol_feed_bytes]⟩
    rw [if_neg hpo]
    by_cases hsemi : cfg.strip_semicolon_comments ∧ c = 59
    · rw [if_pos hsemi]
      exact ⟨hov, rfl, by simp [semicolonLoop]⟩
    rw [if_neg hsemi]
    unfold appendByte
    rw [if_neg (by omega)]
    exact ⟨by simp [protocol_feed_bytes], by simp [protocol_feed_bytes],
      by simp [protocol_feed_bytes]⟩
  · intro cfg p hov
    unfold protocol_feed_bytes
    rw [if_neg (by decide), if_neg (by decide), if_neg (by decide),
      if_neg (by decide), if_pos rfl]
    unfold emit_line
    rw [if_pos hov]
    simp [protocol_feed_bytes]

/-- Closed instance of `protocol_length_bound`: with a full 96-byte
buffer a further data byte only sets the overflow flag, and LF then
delivers the untrimmed 96-byte buffer with status OVERFLOW. -/
theorem protocol_length_bound_witness :
    protocol_feed_bytes protoCfg ⟨List.replicate 96 65, false, false⟩ [66] =
      ({ cur := List.replicate 96 65, cur_overflow := true,
         in_paren_comment := false }, [])
  ∧ protocol_feed_bytes protoCfg ⟨List.replicate 96 65, true, false⟩ [10] =
      (protoInit,
       [ProtoOut.line (List.replicate 96 65) LineStatus.overflow]) :=
  ⟨protocol_length_bound.2.1 protoCfg ⟨List.replicate 96 65, false, false⟩
     66 (by decide) (by decide) (by decide) (by decide) (by decide)
     (by decide) (by decide) (by decide) (by decide) (by decide) (by decide),
   protocol_length_bound.2.2.2 protoCfg
     ⟨List.replicate 96 65, true, false⟩ rfl⟩

end ProtocolClaims

end CNC

namespace CNC

section ArcClaims

/-- The emission loop emits exactly its iteration count of points. -/
theorem arcSegPoints_length (cx cy r step ex ey : ℝ) :
    ∀ (k : ℕ) (th : ℝ),
      (arcSegPoints cx cy r step ex ey k th).length = k := by
  intro k
  induction k with
  | zero => intro th; rfl
  | succ n ih =>
    intro th
    cases n with
    | zero => rfl
    | succ m =>
      rw [arcSegPoints, List.length_cons, ih (th + step)]

/-- For at least one iteration, the emitted list ends with the exact
endpoint. -/
theorem arcSegPoints_append (cx cy r step ex ey : ℝ) :
    ∀ (k : ℕ) (th : ℝ), ∃ l,
      arcSegPoints cx cy r step ex ey (k + 1) th = l ++ [(ex, ey)] := by
  intro k
  induction k with
  | zero => intro th; exact ⟨[], rfl⟩
  | succ m ih =>
    intro th
    obtain ⟨l, hl⟩ := ih (th + step)
    exact ⟨_ :: l, by rw [arcSegPoints, hl]; rfl⟩

/-- C7: an accepted arc (working radius at least `ARC_RADIUS_MIN_MM`)
with an always-continue callback invokes the callback exactly
N = max(1, floor(r·Δθ / ARC_SEGMENT_LEN_MM)) times, clamped to 10000,
and the final invocation receives exactly (end_x, end_y). -/
theorem arc_endpoint_exact (sx sy ex ey i j : ℝ) (cw : Bool)
    (h : ARC_RADIUS_MIN_MM ≤ arcRadiusIJ sx sy ex ey i j) :
    arc_generate_ij sx sy ex ey i j cw
      = some (arcPointsIJ sx sy ex ey i j cw)
  ∧ (arcPointsIJ sx sy ex ey i j cw).length
      = (numSegmentsIJ sx sy ex ey i j cw).toNat
  ∧ numSegmentsIJ sx sy ex ey i j cw
      = max 1 (min 10000 ⌊arcRadiusIJ sx sy ex ey i j *
          arcTravelIJ sx sy ex ey i j cw / ARC_SEGMENT_LEN_MM⌋)
  ∧ (arcPointsIJ sx sy ex ey i j cw).getLast? = some (ex, ey) := by
  have hn : 1 ≤ numSegmentsIJ sx sy ex ey i j cw := by
    simp only [numSegmentsIJ]
    split_ifs <;> omega
  refine ⟨?_, ?_, ?_, ?_⟩
  · unfold arc_generate_ij
    rw [if_neg (not_lt.mpr h)]
  · simp only [arcPointsIJ]
    exact arcSegPoints_length _ _ _ _ _ _ _ _
  · simp only [numSegmentsIJ]
    split_ifs <;> omega
  · simp only [arcPointsIJ]
    obtain ⟨k, hk⟩ : ∃ k, (numSegmentsIJ sx sy ex ey i j cw).toNat = k + 1 :=
      ⟨(numSegmentsIJ sx sy ex ey i j cw).toNat - 1, by omega⟩
    rw [hk]
    obtain ⟨l, hl⟩ := arcSegPoints_append (sx + i) (sy + j)
      (arcRadiusIJ sx sy ex ey i j)
      (if cw then -(arcTravelIJ sx sy ex ey i j cw /
          ((numSegmentsIJ sx sy ex ey i j cw : ℤ) : ℝ))
       else arcTravelIJ sx sy ex ey i j cw /
          ((numSegmentsIJ sx sy ex ey i j cw : ℤ) : ℝ)) ex ey k
      (atan2 (sy - (sy + j)) (sx - (sx + i)))
    rw [hl, List.getLast?_concat]

/-- Closed instance of `arc_endpoint_exact`: the unit-radius arc from
(0,0) to (2,0) about centre (1,0) is accepted and its last emitted
point is exactly (2,0). -/
theorem arc_endpoint_exact_witness :
    ARC_RADIUS_MIN_MM ≤ arcRadiusIJ 0 0 2 0 1 0 ∧
    (arcPointsIJ 0 0 2 0 1 0 true).getLast? = some (2, 0) := by
  have hr : ARC_RADIUS_MIN_MM ≤ arcRadiusIJ 0 0 2 0 1 0 := by
    unfold arcRadiusIJ ARC_RADIUS_MIN_MM
    norm_num
  exact ⟨hr, (arc_endpoint_exact 0 0 2 0 1 0 true hr).2.2.2⟩

end ArcClaims

end CNC

namespace CNC

/-- C10: every public entry point tolerates a `NULL` pointer argument:
`gcode_execute_block` with a `NULL` state or block returns
InvalidParam leaving the state untouched, and `protocol_feed_bytes`,
`system_process_line` and `stepper_update` with a `NULL` context (or
`NULL` data/line) return without reading or modifying any state. -/
theorem null_pointer_tolerance :
    (∀ b : Option GcodeBlock,
      gcode_execute_block_opt none b = (GStatus.errInvalidParam, none))
  ∧ (∀ gc : Option GcodeState,
      gcode_execute_block_opt gc none = (GStatus.errInvalidParam, gc))
  ∧ (∀ (cfg : ProtoConfig) (d : Option (List Nat)),
      protocol_feed_bytes_opt cfg none d = (none, []))
  ∧ (∀ (cfg : ProtoConfig) (p : Option ProtoState),
      protocol_feed_bytes_opt cfg p none = (p, []))
  ∧ (∀ l : Option (List Char), system_process_line_opt none l = none)
  ∧ (∀ s : Option SystemCtx, system_process_line_opt s none = s)
  ∧ (∀ now_us now_ms : Nat,
      stepper_update_opt none now_us now_ms = none) := by
  refine ⟨?_, ?_, ?_, ?_, ?_, ?_, ?_⟩
  · intro b
    cases b <;> rfl
  · intro gc
    cases gc <;> rfl
  · intro cfg d
    cases d <;> rfl
  · intro cfg p
    cases p <;> rfl
  · intro l
    cases l <;> rfl
  · intro s
    cases s <;> rfl
  · intro now_us now_ms
    rfl

end CNC
